import Mathlib

/-!
Shallow embedding of the Transformer embedding front-end of
`from-scratch-foundations`:

* `src/projects/transformer/positional_encoding.py`
  (`SinusoidalPositionalEncoding.build_table`,
  `SinusoidalPositionalEncoding.forward`,
  `LearnedPositionalEmbedding.forward`), and
* `src/src/foundations/projects/transformer/embeddings.py`
  (`TokenAndPositionalEmbedding.__init__` / `forward`).

Modelling choices:

* Tensor elements are idealised real numbers; the floating-point *format*
  (`torch.dtype`) is tracked separately as a tag on every tensor, with
  PyTorch's type-promotion rule for binary ops, since several claims are
  about dtype propagation.  Rounding is not modelled.
* Tensors are shape tuples plus total entry functions; only entries with
  indices below the shape are meaningful.
* Python exceptions become an `Except TErr` result.  `TErr` distinguishes
  the repository's own `ValueError`s (odd `d_model`, `seq_len > max_len`,
  unknown `pos_kind`, and torch's dropout-probability check) from the
  errors torch itself produces where the repository code has no guard
  (broadcast shape mismatch in `x + pe`, embedding index out of range).
* Dropout probabilities are rationals (Python floats used only in
  decidable comparisons); the RNG behind `nn.Dropout` is an explicit
  stream `u : ℕ → ℕ → ℕ → ℚ` of uniform draws in `[0,1)`, one per element:
  training mode drops an element when its draw is `< p` and rescales the
  rest by `1/(1-p)`; eval mode is the identity.
-/

/-- The torch floating dtypes exercised by the spec and the tests. -/
inductive DType where
  | float16
  | bfloat16
  | float32
  | float64
deriving DecidableEq, Repr

/-- Width rank used by torch type promotion (fp16 and bf16 share a rank). -/
def DType.rank : DType → ℕ
  | .float16 => 1
  | .bfloat16 => 1
  | .float32 => 2
  | .float64 => 3

/-- PyTorch result dtype of a binary op on two floating tensors: the wider
dtype wins; the incomparable pair fp16/bf16 promotes to fp32. -/
def promoteDType (a b : DType) : DType :=
  if a = b then a
  else if a.rank < b.rank then b
  else if b.rank < a.rank then a
  else .float32

/-- Failure outcomes of the embedded operations.  The first four are the
`ValueError`s raised by the repository code itself (plus torch's check in
`nn.Dropout.__init__`); the last two are errors raised inside torch by
unguarded tensor ops. -/
inductive TErr where
  | invalidDimension (dModel : ℕ)
  | sequenceTooLong (seqLen maxLen : ℕ)
  | unknownStrategy (tag : String)
  | invalidProbability (p : ℚ)
  | broadcastMismatch
  | indexOutOfRange
deriving DecidableEq, Repr

/-- Human-readable message attached to each error, mirroring the Python
`f`-strings (the `!r` quoting of the tag is kept as single quotes). -/
def TErr.message : TErr → String
  | .invalidDimension d => "d_model must be even, got " ++ toString d
  | .sequenceTooLong l m =>
      "Sequence length " ++ toString l ++ " exceeds max_len " ++ toString m ++ "."
  | .unknownStrategy tag =>
      "Unknown pos_kind \x27" ++ tag ++
        "\x27. Choose from [\x27learned\x27, \x27sinusoidal\x27]."
  | .invalidProbability p =>
      "dropout probability has to be between 0 and 1, but got " ++ toString p
  | .broadcastMismatch => "The size of tensor a must match the size of tensor b"
  | .indexOutOfRange => "index out of range in self"

/-- Model of the `nn.Module.training` flag: training vs evaluation mode. -/
inductive Mode where
  | train
  | eval

/-- A 2-D tensor: shape, element dtype, and a (total) entry function. -/
structure Tensor2 where
  rows : ℕ
  cols : ℕ
  dtype : DType
  entry : ℕ → ℕ → ℝ

/-- A 3-D tensor `(dim0, dim1, dim2)`. -/
structure Tensor3 where
  dim0 : ℕ
  dim1 : ℕ
  dim2 : ℕ
  dtype : DType
  entry : ℕ → ℕ → ℕ → ℝ

/-- A 2-D integer (`torch.long`) tensor of token ids. -/
structure IdTensor2 where
  dim0 : ℕ
  dim1 : ℕ
  entry : ℕ → ℕ → ℤ

/-- Model of `torch.zeros(rows, cols, dtype=dt)`. -/
def zerosT2 (rows cols : ℕ) (dt : DType) : Tensor2 :=
  ⟨rows, cols, dt, fun _ _ => 0⟩

/-- Strided column assignment `t[:, start::2] = src`, `start ∈ {0, 1}`:
column `j` with `j < cols` and `j % 2 = start` receives `src p (j / 2)`
(for `j` odd and `start = 1`, `(j - 1) / 2 = j / 2` in `ℕ`). -/
def setStride2 (t : Tensor2) (start : ℕ) (src : ℕ → ℕ → ℝ) : Tensor2 :=
  { t with entry := fun p j =>
      if (j < t.cols ∧ j % 2 = start) then src p (j / 2) else t.entry p j }

/-- The angle `pos / 10000 ** (2 * i / d_model)` computed by `build_table`
(real-exponent power, i.e. `rpow`). -/
noncomputable def peAngle (dModel pos i : ℕ) : ℝ :=
  (pos : ℝ) / (10000 : ℝ) ^ ((2 * (i : ℝ)) / (dModel : ℝ))

/-- Model of `SinusoidalPositionalEncoding.build_table(seq_len, d_model, dtype=dt)`
(`positional_encoding.py` lines 61-106): rejects odd `d_model`, then fills
a zero table, writing `sin` of the angles into the even columns and `cos`
into the odd columns by strided slice assignment.  The `device` argument
is not modelled. -/
noncomputable def build_table (seq_len d_model : ℕ) (dt : DType) :
    Except TErr Tensor2 :=
  if d_model % 2 ≠ 0 then .error (.invalidDimension d_model)
  else
    let angles : ℕ → ℕ → ℝ := fun p i => peAngle d_model p i
    let pe := zerosT2 seq_len d_model dt
    let pe := setStride2 pe 0 (fun p i => Real.sin (angles p i))
    let pe := setStride2 pe 1 (fun p i => Real.cos (angles p i))
    .ok pe

/-- Model of `t.unsqueeze(0)` on a 2-D tensor. -/
def unsqueeze0 (t : Tensor2) : Tensor3 :=
  ⟨1, t.rows, t.cols, t.dtype, fun _ j k => t.entry j k⟩

/-- Model of `t[:, :len, :]`: slicing clamps, so the middle dimension becomes
`min len dim1`; entries are unchanged. -/
def sliceSeq (t : Tensor3) (len : ℕ) : Tensor3 :=
  ⟨t.dim0, min len t.dim1, t.dim2, t.dtype, t.entry⟩

/-- Broadcast of one dimension pair: equal sizes, or either side 1. -/
def bcDim (m n : ℕ) : Option ℕ :=
  if m = n then some m else if m = 1 then some n else if n = 1 then some m
  else none

/-- Index into a possibly-broadcast dimension of size `m`. -/
def bcIdx (m i : ℕ) : ℕ := if m = 1 then 0 else i

/-- Elementwise `a + b` with PyTorch broadcasting over three dimensions and
type promotion; fails with a torch `RuntimeError` (shape mismatch) when
some dimension pair is incompatible. -/
noncomputable def broadcastAdd3 (a b : Tensor3) : Except TErr Tensor3 :=
  match bcDim a.dim0 b.dim0, bcDim a.dim1 b.dim1, bcDim a.dim2 b.dim2 with
  | some d0, some d1, some d2 =>
      .ok ⟨d0, d1, d2, promoteDType a.dtype b.dtype, fun i j k =>
        a.entry (bcIdx a.dim0 i) (bcIdx a.dim1 j) (bcIdx a.dim2 k) +
        b.entry (bcIdx b.dim0 i) (bcIdx b.dim1 j) (bcIdx b.dim2 k)⟩
  | _, _, _ => .error .broadcastMismatch

/-- Model of `nn.Dropout(p)` applied to a 3-D tensor.  Evaluation mode is the
identity; training mode zeroes each element whose uniform draw is `< p`
and rescales the others by `1/(1-p)` (inverted dropout). -/
noncomputable def dropout3 (mode : Mode) (p : ℚ) (u : ℕ → ℕ → ℕ → ℚ)
    (x : Tensor3) : Tensor3 :=
  match mode with
  | .eval => x
  | .train =>
      { x with entry := fun i j k =>
          if (u i j k < p) then 0 else x.entry i j k / (1 - (p : ℝ)) }

/-- State of `SinusoidalPositionalEncoding`: dims, dropout probability, and
the buffer `pe` of shape `(1, max_len, d_model)`. -/
structure SinusoidalPE where
  dModel : ℕ
  maxLen : ℕ
  p : ℚ
  pe : Tensor3

/-- Model of `SinusoidalPositionalEncoding.__init__(d_model, max_len, dropout)`:
`nn.Dropout` validates the probability, then the table is built for
`(max_len, d_model)` and registered unsqueezed as the buffer `pe`. -/
noncomputable def SinusoidalPE.init (d_model max_len : ℕ) (dropout : ℚ) :
    Except TErr SinusoidalPE :=
  if dropout < 0 ∨ 1 < dropout then .error (.invalidProbability dropout)
  else do
    let t ← build_table max_len d_model .float32
    .ok ⟨d_model, max_len, dropout, unsqueeze0 t⟩

/-- Model of `SinusoidalPositionalEncoding.forward(x)` (lines 108-119): computes
`x + self.pe[:, :x.size(1), :]` (an unguarded broadcast add) and applies
dropout.  There is no explicit `seq_len ≤ max_len` check. -/
noncomputable def SinusoidalPE.forward (m : SinusoidalPE) (mode : Mode)
    (u : ℕ → ℕ → ℕ → ℚ) (x : Tensor3) : Except TErr Tensor3 := do
  let s ← broadcastAdd3 x (sliceSeq m.pe x.dim1)
  .ok (dropout3 mode m.p u s)

/-- State of `LearnedPositionalEmbedding`: dims, dropout probability, and
the `nn.Embedding` weight of shape `(max_len, d_model)`. -/
structure LearnedPE where
  dModel : ℕ
  maxLen : ℕ
  p : ℚ
  weight : Tensor2

/-- Model of `LearnedPositionalEmbedding.__init__(d_model, max_len, dropout)`: an
`nn.Embedding(max_len, d_model)` weight (externally initialised entries
`w`, always `float32`), then `nn.Dropout` validates the probability. -/
noncomputable def LearnedPE.init (d_model max_len : ℕ) (dropout : ℚ)
    (w : ℕ → ℕ → ℝ) : Except TErr LearnedPE :=
  if dropout < 0 ∨ 1 < dropout then .error (.invalidProbability dropout)
  else .ok ⟨d_model, max_len, dropout, ⟨max_len, d_model, .float32, w⟩⟩

/-- Model of `LearnedPositionalEmbedding.forward(x)` (lines 149-162):
`positions = arange(x.size(1))`; the embedding lookup raises torch's
`IndexError` as soon as some position is `≥ max_len`, i.e. exactly when
`x.size(1) > max_len`; otherwise the looked-up `(seq_len, d_model)` block
is broadcast-added to `x` and dropout applied. -/
noncomputable def LearnedPE.forward (m : LearnedPE) (mode : Mode)
    (u : ℕ → ℕ → ℕ → ℚ) (x : Tensor3) : Except TErr Tensor3 :=
  if m.weight.rows < x.dim1 then .error .indexOutOfRange
  else do
    let s ← broadcastAdd3 x
      ⟨1, x.dim1, m.weight.cols, m.weight.dtype, fun _ j k => m.weight.entry j k⟩
    .ok (dropout3 mode m.p u s)

/-- Model of the `nn.Embedding` lookup of a 2-D id batch in a weight table: torch raises
`IndexError` if any id falls outside `[0, rows)`; otherwise the result is a
3-D tensor of the weight rows, with the weight dtype. -/
noncomputable def Tensor2.lookup (w : Tensor2) (ids : IdTensor2) :
    Except TErr Tensor3 :=
  if (∀ b < ids.dim0, ∀ s < ids.dim1,
        0 ≤ ids.entry b s ∧ ids.entry b s < (w.rows : ℤ)) then
    .ok ⟨ids.dim0, ids.dim1, w.cols, w.dtype,
      fun b s k => w.entry (ids.entry b s).toNat k⟩
  else .error .indexOutOfRange

/-- The positional module owned by the block: exactly one of the two
registry entries. -/
inductive PosModule where
  | sinusoidal (m : SinusoidalPE)
  | learned (m : LearnedPE)

/-- Dispatch `self.pos(x)` to the selected strategy. -/
noncomputable def PosModule.forward (pm : PosModule) (mode : Mode)
    (u : ℕ → ℕ → ℕ → ℚ) (x : Tensor3) : Except TErr Tensor3 :=
  match pm with
  | .sinusoidal m => m.forward mode u x
  | .learned m => m.forward mode u x

/-- State of `TokenAndPositionalEmbedding`: configuration, the token
embedding weight (pad row zeroed), the positional module, and the block
dropout probability. -/
structure TokenAndPositionalEmbedding where
  vocabSize : ℕ
  dModel : ℕ
  maxLen : ℕ
  padId : Option ℕ
  token : Tensor2
  pos : PosModule
  p : ℚ

/-- Model of `TokenAndPositionalEmbedding.__init__` (`embeddings.py` lines 74-102):
builds the token table (`nn.Embedding(vocab_size, d_model, padding_idx)`,
externally initialised entries `tokenW`, pad row held at zero), looks the
strategy tag up in `_POS_REGISTRY` and raises `ValueError` for an unknown
tag, instantiates the chosen positional module with `dropout=0.0`
(`posW` initialises the learned table), and finally `nn.Dropout(p=dropout)`
validates the block dropout probability. -/
noncomputable def TokenAndPositionalEmbedding.init (vocab_size d_model max_len : ℕ)
    (pos_kind : String) (dropout : ℚ) (pad_id : Option ℕ)
    (tokenW posW : ℕ → ℕ → ℝ) : Except TErr TokenAndPositionalEmbedding := do
  let token : Tensor2 := ⟨vocab_size, d_model, .float32,
    fun i j => if (pad_id = some i) then 0 else tokenW i j⟩
  let pos ←
    if pos_kind = "sinusoidal" then
      (SinusoidalPE.init d_model max_len 0).map .sinusoidal
    else if pos_kind = "learned" then
      (LearnedPE.init d_model max_len 0 posW).map .learned
    else .error (.unknownStrategy pos_kind)
  if dropout < 0 ∨ 1 < dropout then .error (.invalidProbability dropout)
  else .ok ⟨vocab_size, d_model, max_len, pad_id, token, pos, dropout⟩

/-- Model of `TokenAndPositionalEmbedding.forward(token_ids)` (lines 104-124):
raises `ValueError` when `seq_len > max_len` before anything else; then
token lookup, the positional module (`u1` feeds its internal dropout,
which the block constructed with `p = 0`), and the block dropout (`u2`). -/
noncomputable def TokenAndPositionalEmbedding.forward
    (blk : TokenAndPositionalEmbedding) (mode : Mode) (u1 u2 : ℕ → ℕ → ℕ → ℚ)
    (ids : IdTensor2) : Except TErr Tensor3 :=
  if blk.maxLen < ids.dim1 then
    .error (.sequenceTooLong ids.dim1 blk.maxLen)
  else do
    let x ← blk.token.lookup ids
    let x ← blk.pos.forward mode u1 x
    .ok (dropout3 mode blk.p u2 x)

/-- Row `p` of a 2-D tensor as a list (`t[p]` read out left to right). -/
noncomputable def Tensor2.row (t : Tensor2) (p : ℕ) : List ℝ :=
  (List.range t.cols).map (t.entry p)

/-- The entries of every table `build_table` returns: `sin` of the angle in
the even columns, `cos` in the odd columns. -/
theorem build_table_ok (seq_len d_model : ℕ) (dt : DType)
    (h : d_model % 2 = 0) :
    ∃ t, build_table seq_len d_model dt = .ok t ∧
      t.rows = seq_len ∧ t.cols = d_model ∧ t.dtype = dt ∧
      ∀ p j, j < d_model → t.entry p j =
        if j % 2 = 0 then Real.sin (peAngle d_model p (j / 2))
        else Real.cos (peAngle d_model p (j / 2)) := by
  have hcond : ¬ d_model % 2 ≠ 0 := by simp [h]
  refine ⟨setStride2
      (setStride2 (zerosT2 seq_len d_model dt) 0
        (fun p i => Real.sin (peAngle d_model p i))) 1
      (fun p i => Real.cos (peAngle d_model p i)), ?_, rfl, rfl, rfl, ?_⟩
  · rw [build_table, if_neg hcond]
  · intro p j hj
    by_cases hpar : j % 2 = 0
    · have h1 : ¬ (j % 2 = 1) := by omega
      simp [build_table, h, setStride2, zerosT2, hj, hpar, h1]
    · have h1 : j % 2 = 1 := by omega
      simp [build_table, h, setStride2, zerosT2, hj, h1]

/-- At position 0 every angle is 0. -/
theorem peAngle_zero (d i : ℕ) : peAngle d 0 i = 0 := by
  simp [peAngle]

/-- Claim C1: for `seq_len ≥ 1` and even `d_model ≥ 2`, `build_table`
returns a `(seq_len, d_model)` table with `t[p][2i] = sin(p / 10000^(2i/d_model))`
and `t[p][2i+1] = cos(p / 10000^(2i/d_model))` for `i < d_model / 2`, and
row 0 is `[0, 1, 0, 1, ...]`.  (Determinism is immediate: the builder is a
pure function.) -/
theorem C1_build_table_correct (seq_len d_model : ℕ)
    (_hs : 1 ≤ seq_len) (he : d_model % 2 = 0) (_hd : 2 ≤ d_model) :
    ∃ t, build_table seq_len d_model .float32 = .ok t ∧
      t.rows = seq_len ∧ t.cols = d_model ∧
      (∀ p < seq_len, ∀ i < d_model / 2,
        t.entry p (2 * i) = Real.sin (peAngle d_model p i) ∧
        t.entry p (2 * i + 1) = Real.cos (peAngle d_model p i)) ∧
      t.row 0 =
        (List.range d_model).map (fun j => if j % 2 = 0 then (0 : ℝ) else 1) := by
  obtain ⟨t, hbt, hr, hc, _, hent⟩ := build_table_ok seq_len d_model .float32 he
  refine ⟨t, hbt, hr, hc, ?_, ?_⟩
  · intro p _ i hi
    have h2i : 2 * i < d_model := by omega
    have h2i1 : 2 * i + 1 < d_model := by omega
    constructor
    · rw [hent p (2 * i) h2i]
      simp [Nat.mul_div_cancel_left]
    · rw [hent p (2 * i + 1) h2i1]
      have : (2 * i + 1) % 2 = 1 := by omega
      have hdiv : (2 * i + 1) / 2 = i := by omega
      simp [this, hdiv]
  · unfold Tensor2.row
    rw [hc]
    refine List.map_congr_left ?_
    intro j hj
    rw [List.mem_range] at hj
    rw [hent 0 j hj]
    by_cases hpar : j % 2 = 0 <;> simp [hpar, peAngle_zero]

/-- Concrete instance of C1 at `seq_len = 1`, `d_model = 2`. -/
theorem C1_build_table_correct_witness :
    (1 ≤ 1 ∧ 2 % 2 = 0 ∧ 2 ≤ 2) ∧
    ∃ t, build_table 1 2 .float32 = .ok t ∧
      t.rows = 1 ∧ t.cols = 2 ∧
      (∀ p < 1, ∀ i < 2 / 2,
        t.entry p (2 * i) = Real.sin (peAngle 2 p i) ∧
        t.entry p (2 * i + 1) = Real.cos (peAngle 2 p i)) ∧
      t.row 0 =
        (List.range 2).map (fun j => if j % 2 = 0 then (0 : ℝ) else 1) :=
  ⟨by decide, C1_build_table_correct 1 2 (by decide) (by decide) (by decide)⟩

/-- Claim C6: `build_table` with odd `d_model` fails with the invalid
dimension `ValueError` whatever `seq_len` (and whatever dtype), producing
no table. -/
theorem C6_build_table_odd_fails (seq_len d_model : ℕ) (dt : DType)
    (h : d_model % 2 = 1) :
    build_table seq_len d_model dt = .error (.invalidDimension d_model) := by
  simp [build_table, h]

/-- Concrete instance of C6 at the repo test input `(10, 15)`. -/
theorem C6_build_table_odd_fails_witness :
    15 % 2 = 1 ∧
    build_table 10 15 .float32 = .error (.invalidDimension 15) :=
  ⟨by decide, C6_build_table_odd_fails 10 15 .float32 (by decide)⟩

/-- Claim C9: `build_table` does not validate `seq_len`: with `seq_len = 0`
(outside the spec precondition) and any even `d_model` it succeeds and
returns an empty `(0, d_model)` table. -/
theorem C9_build_table_seq_len_zero (d_model : ℕ) (dt : DType)
    (h : d_model % 2 = 0) :
    ∃ t, build_table 0 d_model dt = .ok t ∧ t.rows = 0 ∧ t.cols = d_model := by
  obtain ⟨t, hbt, hr, hc, _, _⟩ := build_table_ok 0 d_model dt h
  exact ⟨t, hbt, hr, hc⟩

/-- Concrete instance of C9 at `d_model = 4`. -/
theorem C9_build_table_seq_len_zero_witness :
    4 % 2 = 0 ∧
    ∃ t, build_table 0 4 .float32 = .ok t ∧ t.rows = 0 ∧ t.cols = 4 :=
  ⟨by decide, C9_build_table_seq_len_zero 4 .float32 (by decide)⟩

/-- Claim C8: in evaluation mode (dropout is the identity) every forward is
a pure function of the input and the stored tables: the result does not
depend on the dropout RNG streams, so two invocations on the same input
return identical output.  Stated for both positional modules and for the
composed embedding block. -/
theorem C8_eval_forward_deterministic :
    (∀ (m : SinusoidalPE) (u u' : ℕ → ℕ → ℕ → ℚ) (x : Tensor3),
      m.forward .eval u x = m.forward .eval u' x) ∧
    (∀ (m : LearnedPE) (u u' : ℕ → ℕ → ℕ → ℚ) (x : Tensor3),
      m.forward .eval u x = m.forward .eval u' x) ∧
    (∀ (blk : TokenAndPositionalEmbedding) (u1 u2 u1' u2' : ℕ → ℕ → ℕ → ℚ)
      (ids : IdTensor2),
      blk.forward .eval u1 u2 ids = blk.forward .eval u1' u2' ids) := by
  refine ⟨fun m u u' x => rfl, fun m u u' x => rfl, ?_⟩
  rintro ⟨v, d, ml, pid, tok, pos, p⟩ u1 u2 u1' u2' ids
  cases pos <;> rfl

/-- Reduction of `Except` bind at an `ok`. -/
theorem bind_ok_eq {e a b : Type} (x : a) (f : a -> Except e b) :
    (Except.ok x : Except e a) >>= f = f x := rfl

/-- Reduction of `Except` bind at an `error`. -/
theorem bind_error_eq {e a b : Type} (err : e) (f : a -> Except e b) :
    (Except.error err : Except e a) >>= f = Except.error err := rfl

/-- Reduction of `Except.map` at an `ok`. -/
theorem map_ok {e a b : Type} (g : a -> b) (x : a) :
    Except.map g (Except.ok x : Except e a) = Except.ok (g x) := rfl

/-- Reduction of `Except.map` at an `error`. -/
theorem map_error {e a b : Type} (g : a -> b) (err : e) :
    Except.map g (Except.error err : Except e a) = Except.error err := rfl

/-- Inversion: everything `TokenAndPositionalEmbedding.init` guarantees
about a block it successfully constructs. -/
theorem init_ok_inversion (v d m : ℕ) (tag : String) (dp : ℚ)
    (pid : Option ℕ) (w1 w2 : ℕ → ℕ → ℝ) (blk : TokenAndPositionalEmbedding)
    (h : TokenAndPositionalEmbedding.init v d m tag dp pid w1 w2 = .ok blk) :
    blk.vocabSize = v ∧ blk.dModel = d ∧ blk.maxLen = m ∧ blk.padId = pid ∧
    blk.p = dp ∧
    blk.token =
      ⟨v, d, .float32, fun i j => if (pid = some i) then 0 else w1 i j⟩ ∧
    (match blk.pos with
     | .sinusoidal s =>
         tag = "sinusoidal" ∧ s.dModel = d ∧ s.maxLen = m ∧ s.p = 0 ∧
         d % 2 = 0 ∧ ∃ t, build_table m d .float32 = .ok t ∧ s.pe = unsqueeze0 t
     | .learned l =>
         tag = "learned" ∧ l.dModel = d ∧ l.maxLen = m ∧ l.p = 0 ∧
         l.weight = ⟨m, d, .float32, w2⟩) := by
  unfold TokenAndPositionalEmbedding.init at h
  by_cases h1 : tag = "sinusoidal"
  · rw [if_pos h1] at h
    unfold SinusoidalPE.init at h
    rw [if_neg (by norm_num)] at h
    by_cases h2 : d % 2 = 0
    · obtain ⟨t, hbt, _, _, _, _⟩ := build_table_ok m d .float32 h2
      rw [hbt, bind_ok_eq, map_ok, bind_ok_eq] at h
      by_cases h3 : dp < 0 ∨ 1 < dp
      · simp only [if_pos h3] at h
        exact Except.noConfusion h
      · simp only [if_neg h3, Except.ok.injEq] at h
        subst h
        exact ⟨rfl, rfl, rfl, rfl, rfl, rfl, h1, rfl, rfl, rfl, h2, t, hbt, rfl⟩
    · rw [build_table, if_pos (show ¬ d % 2 = 0 from h2), bind_error_eq,
        map_error, bind_error_eq] at h
      exact Except.noConfusion h
  · by_cases h4 : tag = "learned"
    · rw [if_neg h1, if_pos h4] at h
      unfold LearnedPE.init at h
      rw [if_neg (by norm_num), map_ok, bind_ok_eq] at h
      by_cases h3 : dp < 0 ∨ 1 < dp
      · simp only [if_pos h3] at h
        exact Except.noConfusion h
      · simp only [if_neg h3, Except.ok.injEq] at h
        subst h
        exact ⟨rfl, rfl, rfl, rfl, rfl, rfl, h4, rfl, rfl, rfl, rfl⟩
    · rw [if_neg h1, if_neg h4, bind_error_eq] at h
      exact Except.noConfusion h

/-- Broadcast of equal dimensions. -/
theorem bcDim_self (m : ℕ) : bcDim m m = some m := by simp [bcDim]

/-- Broadcast against a size-1 dimension on the right. -/
theorem bcDim_one_right (m : ℕ) : bcDim m 1 = some m := by
  unfold bcDim
  by_cases h : m = 1 <;> simp [h]

/-- An in-range index is unchanged by broadcast indexing. -/
theorem bcIdx_of_lt {n i : ℕ} (h : i < n) : bcIdx n i = i := by
  unfold bcIdx
  by_cases h1 : n = 1
  · subst h1
    rw [if_pos rfl]
    omega
  · simp [h1]

/-- Broadcast indexing into a size-1 dimension hits index 0. -/
theorem bcIdx_one (i : ℕ) : bcIdx 1 i = 0 := rfl

/-- Dropout never changes the shape or dtype of a tensor, in either mode. -/
theorem dropout3_shape (mode : Mode) (p : ℚ) (u : ℕ → ℕ → ℕ → ℚ)
    (x : Tensor3) :
    (dropout3 mode p u x).dim0 = x.dim0 ∧ (dropout3 mode p u x).dim1 = x.dim1 ∧
    (dropout3 mode p u x).dim2 = x.dim2 ∧
    (dropout3 mode p u x).dtype = x.dtype := by
  cases mode <;> exact ⟨rfl, rfl, rfl, rfl⟩

/-- In evaluation mode dropout is the identity. -/
theorem dropout3_eval (p : ℚ) (u : ℕ → ℕ → ℕ → ℚ) (x : Tensor3) :
    dropout3 .eval p u x = x := rfl

/-- Success of the sinusoidal forward whenever the input fits the buffer:
shapes are preserved, the dtype is the promotion of input and buffer
dtypes, and (in eval mode) every in-range entry is input plus table row. -/
theorem sinForward_ok (s : SinusoidalPE) (mode : Mode) (u : ℕ → ℕ → ℕ → ℚ)
    (x : Tensor3) (hpe0 : s.pe.dim0 = 1) (h1 : x.dim1 ≤ s.pe.dim1)
    (h2 : x.dim2 = s.pe.dim2) :
    ∃ y, s.forward mode u x = .ok y ∧
      y.dim0 = x.dim0 ∧ y.dim1 = x.dim1 ∧ y.dim2 = x.dim2 ∧
      y.dtype = promoteDType x.dtype s.pe.dtype ∧
      (mode = .eval → ∀ b j k, b < x.dim0 → j < x.dim1 → k < x.dim2 →
        y.entry b j k = x.entry b j k + s.pe.entry 0 j k) := by
  have hmin : min x.dim1 s.pe.dim1 = x.dim1 := Nat.min_eq_left h1
  refine ⟨dropout3 mode s.p u
    ⟨x.dim0, x.dim1, x.dim2, promoteDType x.dtype s.pe.dtype, fun i j k =>
      x.entry (bcIdx x.dim0 i) (bcIdx x.dim1 j) (bcIdx x.dim2 k) +
      s.pe.entry (bcIdx (sliceSeq s.pe x.dim1).dim0 i)
        (bcIdx (sliceSeq s.pe x.dim1).dim1 j)
        (bcIdx (sliceSeq s.pe x.dim1).dim2 k)⟩, ?_, ?_, ?_, ?_, ?_, ?_⟩
  · unfold SinusoidalPE.forward broadcastAdd3
    have e0 : bcDim x.dim0 (sliceSeq s.pe x.dim1).dim0 = some x.dim0 := by
      rw [show (sliceSeq s.pe x.dim1).dim0 = 1 from hpe0, bcDim_one_right]
    have e1 : bcDim x.dim1 (sliceSeq s.pe x.dim1).dim1 = some x.dim1 := by
      rw [show (sliceSeq s.pe x.dim1).dim1 = min x.dim1 s.pe.dim1 from rfl,
        hmin, bcDim_self]
    have e2 : bcDim x.dim2 (sliceSeq s.pe x.dim1).dim2 = some x.dim2 := by
      rw [show (sliceSeq s.pe x.dim1).dim2 = s.pe.dim2 from rfl, ← h2,
        bcDim_self]
    rw [e0, e1, e2]
    rfl
  · exact (dropout3_shape mode s.p u _).1
  · exact (dropout3_shape mode s.p u _).2.1
  · exact (dropout3_shape mode s.p u _).2.2.1
  · exact (dropout3_shape mode s.p u _).2.2.2
  · rintro rfl b j k hb hj hk
    rw [dropout3_eval]
    show x.entry (bcIdx x.dim0 b) (bcIdx x.dim1 j) (bcIdx x.dim2 k) +
      s.pe.entry (bcIdx (sliceSeq s.pe x.dim1).dim0 b)
        (bcIdx (sliceSeq s.pe x.dim1).dim1 j)
        (bcIdx (sliceSeq s.pe x.dim1).dim2 k) = _
    rw [bcIdx_of_lt hb, bcIdx_of_lt hj, bcIdx_of_lt hk,
      show (sliceSeq s.pe x.dim1).dim0 = 1 from hpe0, bcIdx_one,
      show (sliceSeq s.pe x.dim1).dim1 = min x.dim1 s.pe.dim1 from rfl, hmin,
      bcIdx_of_lt hj,
      show (sliceSeq s.pe x.dim1).dim2 = s.pe.dim2 from rfl, ← h2,
      bcIdx_of_lt hk]

/-- Success of the learned forward whenever the input fits the table:
shapes preserved, dtype promoted, eval-mode entries are input plus the
looked-up position row. -/
theorem learnedForward_ok (m : LearnedPE) (mode : Mode) (u : ℕ → ℕ → ℕ → ℚ)
    (x : Tensor3) (h1 : x.dim1 ≤ m.weight.rows) (h2 : x.dim2 = m.weight.cols) :
    ∃ y, m.forward mode u x = .ok y ∧
      y.dim0 = x.dim0 ∧ y.dim1 = x.dim1 ∧ y.dim2 = x.dim2 ∧
      y.dtype = promoteDType x.dtype m.weight.dtype ∧
      (mode = .eval → ∀ b j k, b < x.dim0 → j < x.dim1 → k < x.dim2 →
        y.entry b j k = x.entry b j k + m.weight.entry j k) := by
  refine ⟨dropout3 mode m.p u
    ⟨x.dim0, x.dim1, x.dim2, promoteDType x.dtype m.weight.dtype, fun i j k =>
      x.entry (bcIdx x.dim0 i) (bcIdx x.dim1 j) (bcIdx x.dim2 k) +
      m.weight.entry (bcIdx x.dim1 j) (bcIdx m.weight.cols k)⟩,
    ?_, ?_, ?_, ?_, ?_, ?_⟩
  · unfold LearnedPE.forward broadcastAdd3
    rw [if_neg (by omega)]
    have e0 : bcDim x.dim0 (1 : ℕ) = some x.dim0 := bcDim_one_right _
    have e1 : bcDim x.dim1 x.dim1 = some x.dim1 := bcDim_self _
    have e2 : bcDim x.dim2 m.weight.cols = some x.dim2 := by
      rw [← h2, bcDim_self]
    show (match bcDim x.dim0 1, bcDim x.dim1 x.dim1,
        bcDim x.dim2 m.weight.cols with
      | some d0, some d1, some d2 => _
      | _, _, _ => _) >>= _ = _
    rw [e0, e1, e2]
    rfl
  · exact (dropout3_shape mode m.p u _).1
  · exact (dropout3_shape mode m.p u _).2.1
  · exact (dropout3_shape mode m.p u _).2.2.1
  · exact (dropout3_shape mode m.p u _).2.2.2
  · rintro rfl b j k hb hj hk
    rw [dropout3_eval]
    show x.entry (bcIdx x.dim0 b) (bcIdx x.dim1 j) (bcIdx x.dim2 k) +
      m.weight.entry (bcIdx x.dim1 j) (bcIdx m.weight.cols k) = _
    rw [bcIdx_of_lt hb, bcIdx_of_lt hj, bcIdx_of_lt hk, ← h2,
      bcIdx_of_lt hk]

/-- Successful token lookup: the result tensor for an all-in-range batch. -/
theorem lookup_ok (w : Tensor2) (ids : IdTensor2)
    (h : ∀ b < ids.dim0, ∀ s < ids.dim1,
      0 ≤ ids.entry b s ∧ ids.entry b s < (w.rows : ℤ)) :
    w.lookup ids = .ok ⟨ids.dim0, ids.dim1, w.cols, w.dtype,
      fun b s k => w.entry (ids.entry b s).toNat k⟩ := by
  unfold Tensor2.lookup
  rw [if_pos h]

/-- The only error a token lookup can produce is the torch index error. -/
theorem lookup_error_eq (w : Tensor2) (ids : IdTensor2) (e : TErr)
    (h : w.lookup ids = .error e) : e = .indexOutOfRange := by
  unfold Tensor2.lookup at h
  by_cases hc : ∀ b < ids.dim0, ∀ s < ids.dim1,
      0 ≤ ids.entry b s ∧ ids.entry b s < (w.rows : ℤ)
  · rw [if_pos hc] at h
    exact Except.noConfusion h
  · rw [if_neg hc] at h
    exact (Except.error.inj h).symm

/-- A broadcast add either succeeds or fails with the shape-mismatch
error. -/
theorem broadcastAdd3_cases (a b : Tensor3) :
    (∃ y, broadcastAdd3 a b = .ok y) ∨
    broadcastAdd3 a b = .error .broadcastMismatch := by
  unfold broadcastAdd3
  split
  · exact Or.inl ⟨_, rfl⟩
  · exact Or.inr rfl

/-- Neither positional module ever produces the `SequenceTooLong` error:
the sinusoidal forward has no length guard at all (it can only fail with a
broadcast mismatch), and the learned forward fails with torch's index
error. -/
theorem posForward_not_seqTooLong (pm : PosModule) (mode : Mode)
    (u : ℕ → ℕ → ℕ → ℚ) (x : Tensor3) (a b : ℕ) :
    pm.forward mode u x ≠ .error (.sequenceTooLong a b) := by
  cases pm with
  | sinusoidal s =>
    intro h
    simp only [PosModule.forward, SinusoidalPE.forward] at h
    rcases broadcastAdd3_cases x (sliceSeq s.pe x.dim1) with ⟨y, hy⟩ | hy
    · rw [hy, bind_ok_eq] at h
      exact Except.noConfusion h
    · rw [hy, bind_error_eq, Except.error.injEq] at h
      exact TErr.noConfusion h
  | learned l =>
    intro h
    simp only [PosModule.forward, LearnedPE.forward] at h
    by_cases hc : l.weight.rows < x.dim1
    · rw [if_pos hc, Except.error.injEq] at h
      exact TErr.noConfusion h
    · rw [if_neg hc] at h
      rcases broadcastAdd3_cases x
        ⟨1, x.dim1, l.weight.cols, l.weight.dtype,
          fun _ j k => l.weight.entry j k⟩ with ⟨y, hy⟩ | hy
      · rw [hy, bind_ok_eq] at h
        exact Except.noConfusion h
      · rw [hy, bind_error_eq, Except.error.injEq] at h
        exact TErr.noConfusion h

/-- Success of the composed block forward: with a fitting sequence and
all ids in range it returns a `(batch, seq_len, d_model)` float32 tensor
whose entries (in eval mode) are token row plus positional row. -/
theorem block_forward_ok (v d m : ℕ) (tag : String) (dp : ℚ)
    (pid : Option ℕ) (w1 w2 : ℕ → ℕ → ℝ) (blk : TokenAndPositionalEmbedding)
    (hi : TokenAndPositionalEmbedding.init v d m tag dp pid w1 w2 = .ok blk)
    (mode : Mode) (u1 u2 : ℕ → ℕ → ℕ → ℚ) (ids : IdTensor2)
    (hlen : ids.dim1 ≤ m)
    (hvalid : ∀ b < ids.dim0, ∀ s < ids.dim1,
      0 ≤ ids.entry b s ∧ ids.entry b s < (v : ℤ)) :
    ∃ y, blk.forward mode u1 u2 ids = .ok y ∧
      y.dim0 = ids.dim0 ∧ y.dim1 = ids.dim1 ∧ y.dim2 = d ∧
      y.dtype = .float32 ∧
      (mode = .eval → ∀ bb ss k, bb < ids.dim0 → ss < ids.dim1 → k < d →
        y.entry bb ss k = blk.token.entry (ids.entry bb ss).toNat k +
          (match blk.pos with
           | .sinusoidal s => s.pe.entry 0 ss k
           | .learned l => l.weight.entry ss k)) := by
  obtain ⟨hv, hd, hm, hpid, hp, htok, hpos⟩ :=
    init_ok_inversion v d m tag dp pid w1 w2 blk hi
  have hfwd : blk.forward mode u1 u2 ids =
      blk.token.lookup ids >>= fun x =>
        blk.pos.forward mode u1 x >>= fun x2 =>
          .ok (dropout3 mode blk.p u2 x2) := by
    unfold TokenAndPositionalEmbedding.forward
    rw [if_neg (by omega)]
  have hvalid' : ∀ b < ids.dim0, ∀ s < ids.dim1,
      0 ≤ ids.entry b s ∧ ids.entry b s < (blk.token.rows : ℤ) := by
    rw [htok]
    exact hvalid
  have hx2 : (blk.token.cols : ℕ) = d := by rw [htok]
  have hxdt : blk.token.dtype = .float32 := by rw [htok]
  rw [hfwd, lookup_ok blk.token ids hvalid', bind_ok_eq]
  cases hpm : blk.pos with
  | sinusoidal s =>
    rw [hpm] at hpos
    obtain ⟨htag, hsd, hsm, hsp, heven, t, hbt, hpe⟩ := hpos
    obtain ⟨t2, hbt2, htr, htc, htd, hent⟩ := build_table_ok m d .float32 heven
    rw [hbt] at hbt2
    cases Except.ok.inj hbt2
    have hpe0 : s.pe.dim0 = 1 := by rw [hpe]; rfl
    have hpe1 : s.pe.dim1 = m := by rw [hpe]; exact htr
    have hpe2 : s.pe.dim2 = d := by rw [hpe]; exact htc
    have hped : s.pe.dtype = .float32 := by rw [hpe]; exact htd
    obtain ⟨y, hy, hy0, hy1, hy2, hydt, hyent⟩ :=
      sinForward_ok s mode u1
        ⟨ids.dim0, ids.dim1, blk.token.cols, blk.token.dtype,
          fun b s' k => blk.token.entry (ids.entry b s').toNat k⟩
        hpe0 (by rw [hpe1]; exact hlen) (by rw [hpe2]; exact hx2)
    simp only [PosModule.forward]
    rw [hy, bind_ok_eq]
    refine ⟨dropout3 mode blk.p u2 y, rfl, ?_, ?_, ?_, ?_, ?_⟩
    · rw [(dropout3_shape mode blk.p u2 y).1, hy0]
    · rw [(dropout3_shape mode blk.p u2 y).2.1, hy1]
    · rw [(dropout3_shape mode blk.p u2 y).2.2.1, hy2]
      exact hx2
    · rw [(dropout3_shape mode blk.p u2 y).2.2.2, hydt, hped]
      show promoteDType blk.token.dtype DType.float32 = DType.float32
      rw [hxdt]
      rfl
    · rintro rfl bb ss k hbb hss hk
      rw [dropout3_eval]
      have hk2 : k < blk.token.cols := hx2.symm ▸ hk
      rw [hyent rfl bb ss k hbb hss hk2]
  | learned l =>
    rw [hpm] at hpos
    obtain ⟨htag, hld, hlm, hlp, hlw⟩ := hpos
    have hw1 : l.weight.rows = m := by rw [hlw]
    have hw2 : l.weight.cols = d := by rw [hlw]
    have hwd : l.weight.dtype = .float32 := by rw [hlw]
    obtain ⟨y, hy, hy0, hy1, hy2, hydt, hyent⟩ :=
      learnedForward_ok l mode u1
        ⟨ids.dim0, ids.dim1, blk.token.cols, blk.token.dtype,
          fun b s' k => blk.token.entry (ids.entry b s').toNat k⟩
        (by rw [hw1]; exact hlen) (by rw [hw2]; exact hx2)
    simp only [PosModule.forward]
    rw [hy, bind_ok_eq]
    refine ⟨dropout3 mode blk.p u2 y, rfl, ?_, ?_, ?_, ?_, ?_⟩
    · rw [(dropout3_shape mode blk.p u2 y).1, hy0]
    · rw [(dropout3_shape mode blk.p u2 y).2.1, hy1]
    · rw [(dropout3_shape mode blk.p u2 y).2.2.1, hy2]
      exact hx2
    · rw [(dropout3_shape mode blk.p u2 y).2.2.2, hydt, hwd]
      show promoteDType blk.token.dtype DType.float32 = DType.float32
      rw [hxdt]
      rfl
    · rintro rfl bb ss k hbb hss hk
      rw [dropout3_eval]
      have hk2 : k < blk.token.cols := hx2.symm ▸ hk
      rw [hyent rfl bb ss k hbb hss hk2]

/-- Claim C4: for a successfully constructed embedding block, forward on a
2-D id batch fails with the `SequenceTooLong` `ValueError` exactly when
`seq_len > max_len`; the check precedes any computation (the error is
raised for arbitrary id values, the pure state is untouched); otherwise,
when every id is in `[0, vocab_size)`, it returns a
`(batch, seq_len, d_model)` float32 tensor via lookup, positional module
and dropout. -/
theorem C4_block_seq_len_guard (v d m : ℕ) (tag : String) (dp : ℚ)
    (pid : Option ℕ) (w1 w2 : ℕ → ℕ → ℝ) (mode : Mode)
    (u1 u2 : ℕ → ℕ → ℕ → ℚ) (ids : IdTensor2)
    (hok : (TokenAndPositionalEmbedding.init v d m tag dp pid w1 w2).isOk
      = true) :
    ((∃ a b, (TokenAndPositionalEmbedding.init v d m tag dp pid w1 w2 >>=
        fun blk => blk.forward mode u1 u2 ids) =
          .error (.sequenceTooLong a b)) ↔ m < ids.dim1) ∧
    (m < ids.dim1 →
      (TokenAndPositionalEmbedding.init v d m tag dp pid w1 w2 >>=
        fun blk => blk.forward mode u1 u2 ids) =
          .error (.sequenceTooLong ids.dim1 m)) ∧
    (ids.dim1 ≤ m →
      (∀ b < ids.dim0, ∀ s < ids.dim1,
        0 ≤ ids.entry b s ∧ ids.entry b s < (v : ℤ)) →
      ∃ y, (TokenAndPositionalEmbedding.init v d m tag dp pid w1 w2 >>=
          fun blk => blk.forward mode u1 u2 ids) = .ok y ∧
        y.dim0 = ids.dim0 ∧ y.dim1 = ids.dim1 ∧ y.dim2 = d ∧
        y.dtype = .float32) := by
  cases hi : TokenAndPositionalEmbedding.init v d m tag dp pid w1 w2 with
  | error e =>
    rw [hi] at hok
    exact Bool.noConfusion hok
  | ok blk =>
    rw [bind_ok_eq]
    obtain ⟨hv, hd, hm, hpid, hp, htok, hpos⟩ :=
      init_ok_inversion v d m tag dp pid w1 w2 blk hi
    by_cases hlen : m < ids.dim1
    · have hfwd : blk.forward mode u1 u2 ids =
          .error (.sequenceTooLong ids.dim1 m) := by
        unfold TokenAndPositionalEmbedding.forward
        rw [hm, if_pos hlen]
      exact ⟨⟨fun _ => hlen, fun _ => ⟨ids.dim1, m, hfwd⟩⟩, fun _ => hfwd,
        fun h' _ => absurd hlen (by omega)⟩
    · have hfwd : blk.forward mode u1 u2 ids =
          blk.token.lookup ids >>= fun x =>
            blk.pos.forward mode u1 x >>= fun x2 =>
              .ok (dropout3 mode blk.p u2 x2) := by
        unfold TokenAndPositionalEmbedding.forward
        rw [hm, if_neg hlen]
      refine ⟨⟨?_, fun hc => absurd hc hlen⟩, fun hc => absurd hc hlen,
        fun hl hvalid => ?_⟩
      · rintro ⟨a, b, hab⟩
        exfalso
        rw [hfwd] at hab
        cases hL : blk.token.lookup ids with
        | error e =>
          rw [hL, bind_error_eq, Except.error.injEq] at hab
          rw [lookup_error_eq blk.token ids e hL] at hab
          exact TErr.noConfusion hab
        | ok x =>
          rw [hL, bind_ok_eq] at hab
          cases hP : blk.pos.forward mode u1 x with
          | error e2 =>
            rw [hP, bind_error_eq, Except.error.injEq] at hab
            exact posForward_not_seqTooLong blk.pos mode u1 x a b
              (hab ▸ hP)
          | ok y =>
            rw [hP, bind_ok_eq] at hab
            exact Except.noConfusion hab
      · obtain ⟨y, hy, h0, h1, h2, hdt, _⟩ :=
          block_forward_ok v d m tag dp pid w1 w2 blk hi mode u1 u2 ids
            hl hvalid
        exact ⟨y, hy, h0, h1, h2, hdt⟩

/-- Concrete instance of C4: block with `vocab=5, d_model=2, max_len=3`,
sinusoidal strategy, on a valid `(1, 2)` batch of zeros. -/
theorem C4_block_seq_len_guard_witness :
    ((TokenAndPositionalEmbedding.init 5 2 3 "sinusoidal" 0 none
        (fun _ _ => 0) (fun _ _ => 0)).isOk = true) ∧
    (((∃ a b, (TokenAndPositionalEmbedding.init 5 2 3 "sinusoidal" 0 none
        (fun _ _ => 0) (fun _ _ => 0) >>=
        fun blk => blk.forward .eval (fun _ _ _ => 0) (fun _ _ _ => 0)
          ⟨1, 2, fun _ _ => 0⟩) =
          .error (.sequenceTooLong a b)) ↔ 3 < (2 : ℕ)) ∧
    (3 < (2 : ℕ) →
      (TokenAndPositionalEmbedding.init 5 2 3 "sinusoidal" 0 none
        (fun _ _ => 0) (fun _ _ => 0) >>=
        fun blk => blk.forward .eval (fun _ _ _ => 0) (fun _ _ _ => 0)
          ⟨1, 2, fun _ _ => 0⟩) =
          .error (.sequenceTooLong 2 3)) ∧
    ((2 : ℕ) ≤ 3 →
      (∀ b < (1 : ℕ), ∀ s < (2 : ℕ),
        (0 : ℤ) ≤ 0 ∧ (0 : ℤ) < (5 : ℤ)) →
      ∃ y, (TokenAndPositionalEmbedding.init 5 2 3 "sinusoidal" 0 none
          (fun _ _ => 0) (fun _ _ => 0) >>=
          fun blk => blk.forward .eval (fun _ _ _ => 0) (fun _ _ _ => 0)
            ⟨1, 2, fun _ _ => 0⟩) = .ok y ∧
        y.dim0 = 1 ∧ y.dim1 = 2 ∧ y.dim2 = 2 ∧ y.dtype = .float32)) :=
  ⟨rfl, C4_block_seq_len_guard 5 2 3 "sinusoidal" 0 none
    (fun _ _ => 0) (fun _ _ => 0) .eval (fun _ _ _ => 0) (fun _ _ _ => 0)
    ⟨1, 2, fun _ _ => 0⟩ rfl⟩

/-- Claim C10: the block forward validates only the sequence length; token
id values are not checked by any of the repository's named `ValueError`s.
With a fitting sequence but an id outside `[0, vocab_size)`, the call
reaches the token lookup and fails there with torch's index error. -/
theorem C10_no_token_id_validation (v d m : ℕ) (tag : String) (dp : ℚ)
    (pid : Option ℕ) (w1 w2 : ℕ → ℕ → ℝ) (mode : Mode)
    (u1 u2 : ℕ → ℕ → ℕ → ℚ) (ids : IdTensor2)
    (hok : (TokenAndPositionalEmbedding.init v d m tag dp pid w1 w2).isOk
      = true)
    (hlen : ids.dim1 ≤ m)
    (hbad : ¬ ∀ b < ids.dim0, ∀ s < ids.dim1,
      0 ≤ ids.entry b s ∧ ids.entry b s < (v : ℤ)) :
    (TokenAndPositionalEmbedding.init v d m tag dp pid w1 w2 >>=
      fun blk => blk.forward mode u1 u2 ids) = .error .indexOutOfRange := by
  cases hi : TokenAndPositionalEmbedding.init v d m tag dp pid w1 w2 with
  | error e =>
    rw [hi] at hok
    exact Bool.noConfusion hok
  | ok blk =>
    rw [bind_ok_eq]
    obtain ⟨hv, hd, hm, hpid, hp, htok, hpos⟩ :=
      init_ok_inversion v d m tag dp pid w1 w2 blk hi
    have hrows : blk.token.rows = v := by rw [htok]
    have hbad' : ¬ ∀ b < ids.dim0, ∀ s < ids.dim1,
        0 ≤ ids.entry b s ∧ ids.entry b s < (blk.token.rows : ℤ) := by
      rw [hrows]
      exact hbad
    have hL : blk.token.lookup ids = .error .indexOutOfRange := by
      unfold Tensor2.lookup
      rw [if_neg hbad']
    unfold TokenAndPositionalEmbedding.forward
    rw [if_neg (by omega), hL, bind_error_eq]

/-- Concrete instance of C10: id 5 in a vocabulary of size 3 is not
pre-validated; the lookup itself raises the index error. -/
theorem C10_no_token_id_validation_witness :
    ((TokenAndPositionalEmbedding.init 3 2 4 "learned" 0 none
        (fun _ _ => 0) (fun _ _ => 0)).isOk = true) ∧
    (1 : ℕ) ≤ 4 ∧
    (¬ ∀ b < (1 : ℕ), ∀ s < (1 : ℕ),
      (0 : ℤ) ≤ (5 : ℤ) ∧ (5 : ℤ) < (3 : ℤ)) ∧
    (TokenAndPositionalEmbedding.init 3 2 4 "learned" 0 none
      (fun _ _ => 0) (fun _ _ => 0) >>=
      fun blk => blk.forward .eval (fun _ _ _ => 0) (fun _ _ _ => 0)
        ⟨1, 1, fun _ _ => 5⟩) = .error .indexOutOfRange :=
  ⟨rfl, by decide, by decide,
    C10_no_token_id_validation 3 2 4 "learned" 0 none
      (fun _ _ => 0) (fun _ _ => 0) .eval (fun _ _ _ => 0) (fun _ _ _ => 0)
      ⟨1, 1, fun _ _ => 5⟩ rfl (by decide) (by decide)⟩

/-- Claim C7: with a designated pad id, the pad row of the token table is
the zero vector, so in the sinusoidal configuration with dropout disabled
(eval mode, probability 0) the block output at every pad position equals
the sinusoidal table row for that position; the output has shape
`(batch, seq_len, d_model)` (the spec example instantiates this at
`(1, 6, 16)`). -/
theorem C7_pad_position_is_table_row (v d m : ℕ) (pid : ℕ)
    (w1 w2 : ℕ → ℕ → ℝ) (u1 u2 : ℕ → ℕ → ℕ → ℚ) (ids : IdTensor2)
    (hok : (TokenAndPositionalEmbedding.init v d m "sinusoidal" 0
      (some pid) w1 w2).isOk = true)
    (hlen : ids.dim1 ≤ m)
    (hvalid : ∀ b < ids.dim0, ∀ s < ids.dim1,
      0 ≤ ids.entry b s ∧ ids.entry b s < (v : ℤ)) :
    (∀ blk, TokenAndPositionalEmbedding.init v d m "sinusoidal" 0
        (some pid) w1 w2 = .ok blk →
      ∀ k, blk.token.entry pid k = 0) ∧
    ∃ y, (TokenAndPositionalEmbedding.init v d m "sinusoidal" 0
        (some pid) w1 w2 >>=
        fun blk => blk.forward .eval u1 u2 ids) = .ok y ∧
      y.dim0 = ids.dim0 ∧ y.dim1 = ids.dim1 ∧ y.dim2 = d ∧
      (∀ bb ss, bb < ids.dim0 → ss < ids.dim1 →
        ids.entry bb ss = (pid : ℤ) → ∀ k < d,
        y.entry bb ss k =
          if k % 2 = 0 then Real.sin (peAngle d ss (k / 2))
          else Real.cos (peAngle d ss (k / 2))) := by
  cases hi : TokenAndPositionalEmbedding.init v d m "sinusoidal" 0
      (some pid) w1 w2 with
  | error e =>
    rw [hi] at hok
    exact Bool.noConfusion hok
  | ok blk =>
    obtain ⟨hv, hd, hm, hpid, hp, htok, hpos⟩ :=
      init_ok_inversion v d m "sinusoidal" 0 (some pid) w1 w2 blk hi
    have hpad : ∀ k, blk.token.entry pid k = 0 := by
      intro k
      rw [htok]
      simp
    constructor
    · intro blk' h'
      cases Except.ok.inj h'
      exact hpad
    · rw [bind_ok_eq]
      obtain ⟨y, hy, h0, h1, h2, _, hent⟩ :=
        block_forward_ok v d m "sinusoidal" 0 (some pid) w1 w2 blk hi
          .eval u1 u2 ids hlen hvalid
      refine ⟨y, hy, h0, h1, h2, ?_⟩
      intro bb ss hbb hss hpadpos k hk
      rw [hent rfl bb ss k hbb hss hk, hpadpos]
      cases hpm : blk.pos with
      | sinusoidal s =>
        rw [hpm] at hpos
        obtain ⟨htag, hsd, hsm, hsp, heven, t, hbt, hpe⟩ := hpos
        obtain ⟨t2, hbt2, htr, htc, htd, htent⟩ :=
          build_table_ok m d .float32 heven
        rw [hbt] at hbt2
        cases Except.ok.inj hbt2
        have : (↑pid : ℤ).toNat = pid := by simp
        rw [this, hpad k]
        show (0 : ℝ) + s.pe.entry 0 ss k = _
        rw [hpe]
        show (0 : ℝ) + t.entry ss k = _
        rw [zero_add, htent ss k hk]
      | learned l =>
        rw [hpm] at hpos
        exact absurd hpos.1 (by decide)

/-- Concrete instance of C7 at the spec example: `vocab_size=1000,
d_model=16, max_len=128, pad_id=0`, sinusoidal strategy, input
`[[12,453,7,88,0,999]]`, output shape `(1, 6, 16)`. -/
theorem C7_pad_position_is_table_row_witness :
    ((TokenAndPositionalEmbedding.init 1000 16 128 "sinusoidal" 0 (some 0)
        (fun _ _ => 0) (fun _ _ => 0)).isOk = true ∧
      (6 : ℕ) ≤ 128 ∧
      (∀ b < (1 : ℕ), ∀ s < (6 : ℕ),
        0 ≤ ([(12 : ℤ), 453, 7, 88, 0, 999].getD s 0) ∧
        ([(12 : ℤ), 453, 7, 88, 0, 999].getD s 0) < (1000 : ℤ))) ∧
    ((∀ blk, TokenAndPositionalEmbedding.init 1000 16 128 "sinusoidal" 0
        (some 0) (fun _ _ => 0) (fun _ _ => 0) = .ok blk →
      ∀ k, blk.token.entry 0 k = 0) ∧
    ∃ y, (TokenAndPositionalEmbedding.init 1000 16 128 "sinusoidal" 0
        (some 0) (fun _ _ => 0) (fun _ _ => 0) >>=
        fun blk => blk.forward .eval (fun _ _ _ => 0) (fun _ _ _ => 0)
          ⟨1, 6, fun _ s => [(12 : ℤ), 453, 7, 88, 0, 999].getD s 0⟩) =
        .ok y ∧
      y.dim0 = 1 ∧ y.dim1 = 6 ∧ y.dim2 = 16 ∧
      (∀ bb ss, bb < (1 : ℕ) → ss < (6 : ℕ) →
        (⟨1, 6, fun _ s => [(12 : ℤ), 453, 7, 88, 0, 999].getD s 0⟩ :
          IdTensor2).entry bb ss = ((0 : ℕ) : ℤ) → ∀ k < (16 : ℕ),
        y.entry bb ss k =
          if k % 2 = 0 then Real.sin (peAngle 16 ss (k / 2))
          else Real.cos (peAngle 16 ss (k / 2)))) :=
  ⟨⟨rfl, by decide, by decide⟩,
    C7_pad_position_is_table_row 1000 16 128 0
      (fun _ _ => 0) (fun _ _ => 0) (fun _ _ _ => 0) (fun _ _ _ => 0)
      ⟨1, 6, fun _ s => [(12 : ℤ), 453, 7, 88, 0, 999].getD s 0⟩
      rfl (by decide) (by decide)⟩

/-- Claim C5 (amended): construction with a tag outside
`{sinusoidal, learned}` fails with the unknown-strategy `ValueError`,
whose message contains the offending tag; for the two valid tags
construction never fails with that error and — given a dropout
probability in `[0, 1]` and, for the sinusoidal tag, an even `d_model` —
succeeds and instantiates the corresponding positional module. -/
theorem C5_strategy_tag_dispatch (v d m : ℕ) (tag : String) (dp : ℚ)
    (pid : Option ℕ) (w1 w2 : ℕ → ℕ → ℝ) :
    (tag ≠ "sinusoidal" → tag ≠ "learned" →
      TokenAndPositionalEmbedding.init v d m tag dp pid w1 w2 =
        .error (.unknownStrategy tag) ∧
      ∃ pre post, (TErr.unknownStrategy tag).message = pre ++ tag ++ post) ∧
    (0 ≤ dp → dp ≤ 1 →
      (tag = "learned" →
        ∃ blk, TokenAndPositionalEmbedding.init v d m tag dp pid w1 w2 =
          .ok blk ∧ ∃ l, blk.pos = .learned l) ∧
      (tag = "sinusoidal" → d % 2 = 0 →
        ∃ blk, TokenAndPositionalEmbedding.init v d m tag dp pid w1 w2 =
          .ok blk ∧ ∃ s, blk.pos = .sinusoidal s)) := by
  have hdpn : ∀ (h0 : 0 ≤ dp) (h1 : dp ≤ 1), ¬ (dp < 0 ∨ 1 < dp) := by
    rintro h0 h1 (h | h) <;> linarith
  constructor
  · intro h1 h4
    constructor
    · unfold TokenAndPositionalEmbedding.init
      rw [if_neg h1, if_neg h4, bind_error_eq]
    · refine ⟨"Unknown pos_kind \x27",
        "\x27. Choose from [\x27learned\x27, \x27sinusoidal\x27].", ?_⟩
      rw [TErr.message, String.append_assoc]
  · intro h0 h1
    constructor
    · intro htag
      subst htag
      unfold TokenAndPositionalEmbedding.init LearnedPE.init
      rw [if_neg (by decide), if_pos rfl, if_neg (by norm_num), map_ok,
        bind_ok_eq]
      simp only [if_neg (hdpn h0 h1)]
      exact ⟨_, rfl, _, rfl⟩
    · intro htag heven
      subst htag
      obtain ⟨t, hbt, _, _, _, _⟩ := build_table_ok m d .float32 heven
      unfold TokenAndPositionalEmbedding.init SinusoidalPE.init
      rw [if_pos rfl, if_neg (by norm_num), hbt, bind_ok_eq, map_ok,
        bind_ok_eq]
      simp only [if_neg (hdpn h0 h1)]
      exact ⟨_, rfl, _, rfl⟩

/-- Counterexample to C5 as stated: with the valid tag `sinusoidal` but
odd `d_model = 3`, construction does not succeed (it fails with the
invalid-dimension error), so success for in-set tags is conditional. -/
theorem C5_strategy_tag_dispatch_counterexample :
    TokenAndPositionalEmbedding.init 8 3 4 "sinusoidal" 0 none
      (fun _ _ => 0) (fun _ _ => 0) = .error (.invalidDimension 3) ∧
    (TokenAndPositionalEmbedding.init 8 3 4 "sinusoidal" 0 none
      (fun _ _ => 0) (fun _ _ => 0)).isOk = false :=
  ⟨rfl, rfl⟩

/-- Concrete instance of C5 (amended): the tag `rotary` is rejected with
the tag in the message; `learned` and `sinusoidal` (even `d_model`)
succeed. -/
theorem C5_strategy_tag_dispatch_witness :
    (("rotary" ≠ "sinusoidal" ∧ "rotary" ≠ "learned") ∧
      ((0 : ℚ) ≤ 0 ∧ (0 : ℚ) ≤ 1)) ∧
    ((TokenAndPositionalEmbedding.init 8 4 6 "rotary" 0 none
        (fun _ _ => 0) (fun _ _ => 0) =
          .error (.unknownStrategy "rotary") ∧
      ∃ pre post, (TErr.unknownStrategy "rotary").message =
        pre ++ "rotary" ++ post) ∧
      ((TokenAndPositionalEmbedding.init 8 4 6 "learned" 0 none
          (fun _ _ => 0) (fun _ _ => 0)).isOk = true) ∧
      ((TokenAndPositionalEmbedding.init 8 4 6 "sinusoidal" 0 none
          (fun _ _ => 0) (fun _ _ => 0)).isOk = true)) := by
  have h := C5_strategy_tag_dispatch 8 4 6 "rotary" 0 none
    (fun _ _ => 0) (fun _ _ => 0)
  have hl := C5_strategy_tag_dispatch 8 4 6 "learned" 0 none
    (fun _ _ => 0) (fun _ _ => 0)
  have hs := C5_strategy_tag_dispatch 8 4 6 "sinusoidal" 0 none
    (fun _ _ => 0) (fun _ _ => 0)
  refine ⟨⟨⟨by decide, by decide⟩, ⟨by norm_num, by norm_num⟩⟩,
    h.1 (by decide) (by decide), ?_, ?_⟩
  · obtain ⟨blk, hblk, -⟩ := (hl.2 (by norm_num) (by norm_num)).1 rfl
    rw [hblk]
    rfl
  · obtain ⟨blk, hblk, -⟩ := (hs.2 (by norm_num) (by norm_num)).2 rfl
      (by decide)
    rw [hblk]
    rfl

/-- Claim C2 evaluated on the code (code-bug record): the positional
modules have no `seq_len > max_len` guard.  At the repo test input
(`d_model=16, max_len=10`, input `(1, 20, 16)`) the sinusoidal forward
fails with torch's broadcast shape mismatch — not `SequenceTooLong` —
and the learned forward with torch's index error; with `max_len = 1` the
sinusoidal forward does not fail at all (the single row broadcasts over
`seq_len = 2`).  Only the success half of the claim holds: both modules
succeed at `seq_len = max_len`. -/
theorem C2_positional_modules_lack_guard :
    (SinusoidalPE.init 16 10 0 >>= fun s =>
      s.forward .eval (fun _ _ _ => 0)
        ⟨1, 20, 16, .float32, fun _ _ _ => 0⟩) =
      .error .broadcastMismatch ∧
    (LearnedPE.init 16 10 0 (fun _ _ => 0) >>= fun l =>
      l.forward .eval (fun _ _ _ => 0)
        ⟨1, 20, 16, .float32, fun _ _ _ => 0⟩) =
      .error .indexOutOfRange ∧
    ((SinusoidalPE.init 2 1 0 >>= fun s =>
      s.forward .eval (fun _ _ _ => 0)
        ⟨1, 2, 2, .float32, fun _ _ _ => 0⟩)).isOk = true ∧
    ((SinusoidalPE.init 16 10 0 >>= fun s =>
      s.forward .eval (fun _ _ _ => 0)
        ⟨1, 10, 16, .float32, fun _ _ _ => 0⟩)).isOk = true ∧
    ((LearnedPE.init 16 10 0 (fun _ _ => 0) >>= fun l =>
      l.forward .eval (fun _ _ _ => 0)
        ⟨1, 10, 16, .float32, fun _ _ _ => 0⟩)).isOk = true :=
  ⟨rfl, rfl, rfl, rfl, rfl⟩

/-- Claim C3 evaluated on the code (code-bug record): the positional
modules do not preserve reduced-precision input dtypes.  At the repo test
inputs (fp16 and bf16 batches of shape `(1, 5, 16)`), the unguarded add
against the float32 table promotes the result to float32 for both
modules, instead of returning the input dtype. -/
theorem C3_dtype_not_preserved :
    ((SinusoidalPE.init 16 5000 0 >>= fun s =>
      s.forward .eval (fun _ _ _ => 0)
        ⟨1, 5, 16, .float16, fun _ _ _ => 0⟩).map Tensor3.dtype) =
      .ok .float32 ∧
    ((SinusoidalPE.init 16 5000 0 >>= fun s =>
      s.forward .eval (fun _ _ _ => 0)
        ⟨1, 5, 16, .bfloat16, fun _ _ _ => 0⟩).map Tensor3.dtype) =
      .ok .float32 ∧
    ((LearnedPE.init 16 50 0 (fun _ _ => 0) >>= fun l =>
      l.forward .eval (fun _ _ _ => 0)
        ⟨1, 5, 16, .float16, fun _ _ _ => 0⟩).map Tensor3.dtype) =
      .ok .float32 ∧
    DType.float32 ≠ DType.float16 ∧ DType.float32 ≠ DType.bfloat16 :=
  ⟨rfl, rfl, rfl, by decide, by decide⟩
